import Mathlib

/-!
Verification of the VoiceDi_MIPT data-preparation scripts against their
natural-language specification.

The development shallowly embeds the two relevant modules:

* `src/utils/iemocap_loader_ft.py` — the `IEMOCAP` dataset index
  (`preprocess`: label filtering/encoding, session-based partitioning,
  balanced class weights) and the `MyCollator` batch assembler
  (random crop, clip to [0,1], zero/sentinel padding, stacking).
* `src/Decomposition/make_spect_f0.py` — the feature-extraction script:
  module-level name bindings, per-speaker directory setup, gender-based
  pitch bounds, the length-adjust step, the frame-count assertion, and
  which artifacts get written.

Floating-point sample values are modelled as rationals; the external
signal-processing and embedding libraries (librosa, pysptk, resemblyzer,
scipy, and the repository's own `utils.py` helpers) are treated as oracle
parameters where only their output lengths matter, and modelled from the
spec where a claim is about their documented behaviour.
-/

namespace VoiceDi

/-! ## Dataset index (`IEMOCAP.preprocess` in `src/utils/iemocap_loader_ft.py`) -/

/-- A raw manifest row: the `wav_file` identifier and the (string) emotion
label, as read from `iemocap_meta.csv`. Artifact path columns are dropped
because `preprocess` never touches them. -/
structure RawRow where
  wav_file : String
  emotion : String
deriving DecidableEq, Repr

/-- A manifest row after label encoding: the emotion column now holds the
dense integer index. -/
structure Row where
  wav_file : String
  emotion : Nat
deriving DecidableEq, Repr

/-- Python string slicing `s[a:b]` for `0 ≤ a ≤ b` (the only shape used by
the loader): characters at positions `a, …, b-1`, clamped to the string. -/
def pySlice (s : String) (a b : Nat) : String :=
  String.mk ((s.data.drop a).take (b - a))

/-- The label encoder `emo2idx = {emo: idx for idx, emo in enumerate(selected_emos)}`:
a label is replaced by its position in the selected-label list. -/
def emo2idx (selected : List String) (emo : String) : Nat :=
  selected.indexOf emo

/-- Encoding one retained row (`self.meta["emotion"].replace(self.emo2idx)`). -/
def encodeRow (selected : List String) (r : RawRow) : Row :=
  ⟨r.wav_file, emo2idx selected r.emotion⟩

/-- The filtered and encoded manifest
(`self.meta = self.meta.loc[self.meta["emotion"].isin(self.selected_emos)]`
followed by the `replace`). -/
def metaFiltered (selected : List String) (meta : List RawRow) : List Row :=
  (meta.filter (fun r => selected.contains r.emotion)).map (encodeRow selected)

/-- The derived session column
(`self.meta["session"] = self.meta["wav_file"].apply(lambda s: s[3:5])`). -/
def sessionOf (r : Row) : String :=
  pySlice r.wav_file 3 5

/-- Train partition: rows whose session is `"01"`, `"02"` or `"03"`. -/
def meta_train (selected : List String) (meta : List RawRow) : List Row :=
  (metaFiltered selected meta).filter
    (fun r => sessionOf r == "01" || sessionOf r == "02" || sessionOf r == "03")

/-- Validation partition: rows whose session is `"04"`. -/
def meta_val (selected : List String) (meta : List RawRow) : List Row :=
  (metaFiltered selected meta).filter (fun r => sessionOf r == "04")

/-- Test partition: rows whose session is `"05"`. -/
def meta_test (selected : List String) (meta : List RawRow) : List Row :=
  (metaFiltered selected meta).filter (fun r => sessionOf r == "05")

/-! ## Balanced class weights (`compute_class_weight("balanced", …)` over the
train partition's encoded emotion column) -/

/-- Number of distinct classes (`np.unique(self.meta_train.emotion.values)`). -/
def numClasses (y : List Nat) : Nat :=
  y.dedup.length

/-- Balanced class weight of class `c` over label list `y`:
`n_samples / (n_classes * count(c))`, as sklearn computes it for each class
present in `y`. -/
def classWeight (y : List Nat) (c : Nat) : ℚ :=
  (y.length : ℚ) / ((numClasses y : ℚ) * (y.count c : ℚ))

/-- The weight vector the Dataset Index stores: balanced weights over the
train partition's encoded emotion labels. -/
def trainClassWeight (selected : List String) (meta : List RawRow) (c : Nat) : ℚ :=
  classWeight ((meta_train selected meta).map Row.emotion) c

/-! ## Batch assembler (`MyCollator` in `src/utils/iemocap_loader_ft.py`) -/

/-- The three size constraints `MyCollator` reads off the hyperparameter
object: `min_len_seq`, `max_len_seq`, `max_len_pad`. -/
structure Hparams where
  min_len_seq : Nat
  max_len_seq : Nat
  max_len_pad : Nat
deriving DecidableEq, Repr

/-- One `__getitem__` output `(melsp, emb_org, f0_org, emo)`: spectrogram as a
list of frames (each a list of mel-bin values), speaker embedding, pitch
contour, and encoded emotion label. -/
structure Token where
  melsp : List (List ℚ)
  emb : List ℚ
  f0 : List ℚ
  emo : Nat
deriving DecidableEq, Repr

/-- The unvoiced-pitch sentinel `-1e10`. -/
def sentinel : ℚ :=
  -(10 ^ 10)

/-- Elementwise `np.clip(·, 0, 1)`. -/
def clip01 (v : ℚ) : ℚ :=
  min (max v 0) 1

/-- The `len_crop` the collator records for an utterance: `max_len_seq` when
the spectrogram is longer than that, the true length otherwise. -/
def cropLen (hp : Hparams) (aa : List (List ℚ)) : Nat :=
  if aa.length > hp.max_len_seq then hp.max_len_seq else aa.length

/-- The (possibly) cropped spectrogram `a`: the window
`aa[left : left + max_len_seq]` in the long case, `aa` unchanged otherwise. -/
def cropSpect (hp : Hparams) (left : Nat) (aa : List (List ℚ)) : List (List ℚ) :=
  if aa.length > hp.max_len_seq then (aa.drop left).take hp.max_len_seq else aa

/-- The (possibly) cropped pitch contour `c`: the branch condition is on the
spectrogram length `len(aa)` and the same `left` offset is reused, exactly as
in the source. -/
def cropPitch (hp : Hparams) (left : Nat) (aa : List (List ℚ)) (c : List ℚ) : List ℚ :=
  if aa.length > hp.max_len_seq then (c.drop left).take hp.max_len_seq else c

/-- Row width `a.shape[1]` used by `np.pad` when it manufactures zero rows. -/
def rowWidth (a : List (List ℚ)) : Nat :=
  (a.headD []).length

/-- The per-token entry of `new_batch`: `(a_pad, b, c_pad, len_crop, emo)`.
`left` stands for the draw `np.random.randint(0, len(aa) - len_crop)` made in
the crop branch. -/
structure TokenOut where
  a_pad : List (List ℚ)
  b : List ℚ
  c_pad : List ℚ
  len_crop : Nat
  emo : Nat
deriving DecidableEq, Repr

/-- The body of the `for token in batch` loop in `MyCollator.__call__`: crop
(spectrogram and pitch in lockstep), clip the spectrogram to `[0, 1]`,
zero-pad the spectrogram rows and sentinel-pad the pitch contour up to
`max_len_pad`. -/
def collateToken (hp : Hparams) (left : Nat) (t : Token) : TokenOut :=
  let a0 := cropSpect hp left t.melsp
  let c0 := cropPitch hp left t.melsp t.f0
  let a1 := a0.map (fun row => row.map clip01)
  let a_pad := a1 ++ List.replicate (hp.max_len_pad - a1.length) (List.replicate (rowWidth a1) 0)
  let c_pad := c0 ++ List.replicate (hp.max_len_pad - c0.length) sentinel
  ⟨a_pad, t.emb, c_pad, cropLen hp t.melsp, t.emo⟩

/-- What `MyCollator.__call__` returns: `melsp, spk_emb, pitch, len_org` —
four stacked arrays. The stacked label array `emo_org` is built in the body
but is not part of the return value. -/
structure CollatorOutput where
  melsp : List (List (List ℚ))
  spk_emb : List (List ℚ)
  pitch : List (List ℚ)
  len_org : List Nat
deriving DecidableEq, Repr

/-- The whole of `MyCollator.__call__`. The ambient NumPy RNG is made
explicit as `lefts`, giving the `left` draw used for the token at each batch
position. -/
def collate (hp : Hparams) (lefts : Nat → Nat) (batch : List Token) : CollatorOutput :=
  let nb := batch.enum.map (fun p => collateToken hp (lefts p.1) p.2)
  ⟨nb.map TokenOut.a_pad, nb.map TokenOut.b, nb.map TokenOut.c_pad, nb.map TokenOut.len_crop⟩

/-- Relabelling an utterance: same features, a different emotion label. -/
def relabel (f : Nat → Nat) (t : Token) : Token :=
  ⟨t.melsp, t.emb, t.f0, f t.emo⟩

/-! ## Feature-extraction script (`src/Decomposition/make_spect_f0.py`) -/

/-- The Python exceptions the script can raise along the modelled paths. -/
inductive PyError where
  | nameError : String → PyError
  | keyError : PyError
  | valueError : PyError
  | assertionError : PyError
deriving DecidableEq, Repr

/-- Dynamic lookup of a module-level name, as Python resolves globals: a
missing binding is a `NameError` for that name. -/
def lookupGlobal (env : List (String × String)) (x : String) : Except PyError String :=
  match env.find? (fun p => p.1 == x) with
  | some p => Except.ok p.2
  | none => Except.error (PyError.nameError x)

/-- The module-level directory bindings of `make_spect_f0.py`: `rootDir`,
`targetDir_f0` and `targetDir` are assigned; `targetDir_emb` is used later
but never assigned anywhere in the module. -/
def moduleEnv : List (String × String) :=
  [("rootDir", "assets/vctk_full"),
   ("targetDir_f0", "assets/vctk_full_raptf0"),
   ("targetDir", "assets/vctk_full_spmel")]

/-- Gender-based pitch-tracking bounds: `"M"` gives `(50, 250)`, `"F"` gives
`(100, 600)`, anything else raises `ValueError`. -/
def loHi (g : String) : Except PyError (Nat × Nat) :=
  if g == "M" then Except.ok (50, 250)
  else if g == "F" then Except.ok (100, 600)
  else Except.error PyError.valueError

/-- Kinds of `np.save` artifacts the script writes. -/
inductive Artifact where
  | spect : Artifact
  | f0 : Artifact
  | emb : Artifact
  | avgEmb : Artifact
deriving DecidableEq, Repr

/-- One `np.save` call: destination path (sans extension) and artifact kind. -/
structure SaveCall where
  path : String
  kind : Artifact
deriving DecidableEq, Repr

/-- Oracles for the external signal-processing and embedding libraries used
per utterance: the composite mel-spectrogram computation (`pySTFT`, the mel
projection and the decibel scaling), the RAPT pitch tracker (`sptk.rapt` at
the given bounds), the speaker encoder (`resemblyzer`), and the high-pass
filter plus dither whose RNG is seeded from the speaker directory name. Only
control flow and output lengths of these calls matter to the claims below. -/
structure Oracles where
  spectS : List ℚ → List (List ℚ)
  rapt : Nat → Nat → List ℚ → List ℚ
  embed : List ℚ → List ℚ
  filtdither : String → List ℚ → List ℚ

/-- Python `s[-n:]` for `n ≤ len(s)` (and all of `s` when it is shorter). -/
def lastN (s : String) (n : Nat) : String :=
  String.mk (s.data.drop (s.data.length - n))

/-- Python `s[:-n]`: everything but the last `n` characters. -/
def dropLastN (s : String) (n : Nat) : String :=
  String.mk (s.data.take (s.data.length - n))

/-- The length-adjust step of the Signal Preprocessor: if the sample count is
an exact multiple of the 256-sample hop, append one sample of value `1e-06`
(`x = np.concatenate((x, np.array([1e-06])), axis=0)`). -/
def lengthAdjust (x : List ℚ) : List ℚ :=
  if x.length % 256 = 0 then x ++ [1 / 1000000] else x

/-- Processing of one file inside the per-speaker loop: skip non-`.wav`
files; length-adjust and filter/dither the waveform; compute the
mel-spectrogram `S` and the pitch contour `f0_rapt`;
`assert len(S) == len(f0_rapt)`; only then `np.save` the spectrogram, the
normalized pitch and the utterance embedding. Returns the save calls made,
or the exception that aborted the utterance (before any of its saves). -/
def processUtterance (oc : Oracles) (td tf0 temb : String) (lo hi : Nat)
    (subdir fileName : String) (x : List ℚ) : Except PyError (List SaveCall) :=
  if lastN fileName 4 ≠ ".wav" then Except.ok []
  else
    let wav := oc.filtdither subdir (lengthAdjust x)
    let S := oc.spectS wav
    let f0_rapt := oc.rapt lo hi wav
    if S.length = f0_rapt.length then
      Except.ok
        [⟨td ++ "/" ++ subdir ++ "/" ++ dropLastN fileName 4, Artifact.spect⟩,
         ⟨tf0 ++ "/" ++ subdir ++ "/" ++ dropLastN fileName 4, Artifact.f0⟩,
         ⟨temb ++ "/" ++ subdir ++ "/" ++ dropLastN fileName 4, Artifact.emb⟩]
    else Except.error PyError.assertionError

/-- The `for fileName in sorted(fileList)` loop: utterances are processed in
order, saves accumulate, and the first uncaught exception aborts the loop
with the saves made so far. -/
def processFiles (oc : Oracles) (td tf0 temb : String) (lo hi : Nat)
    (subdir : String) : List (String × List ℚ) → List SaveCall × Option PyError
  | [] => ([], none)
  | (fileName, x) :: rest =>
    match processUtterance oc td tf0 temb lo hi subdir fileName x with
    | Except.error e => ([], some e)
    | Except.ok ws =>
      match processFiles oc td tf0 temb lo hi subdir rest with
      | (ws2, r) => (ws ++ ws2, r)

/-- The body of the `for subdir in sorted(subdirList)` loop: set up the three
output directories (evaluating `targetDir`, `targetDir_f0` and
`targetDir_emb` in that order), look up the speaker's gender in `spk2gen`,
select the pitch bounds, process every file, and finally save the
speaker-average embedding. Returns the save calls actually made paired with
the exception, if any, that aborted this speaker. -/
def processSpeaker (env : List (String × String)) (spk2gen : List (String × String))
    (oc : Oracles) (subdir : String) (files : List (String × List ℚ)) :
    List SaveCall × Option PyError :=
  match lookupGlobal env "targetDir" with
  | Except.error e => ([], some e)
  | Except.ok td =>
    match lookupGlobal env "targetDir_f0" with
    | Except.error e => ([], some e)
    | Except.ok tf0 =>
      match lookupGlobal env "targetDir_emb" with
      | Except.error e => ([], some e)
      | Except.ok temb =>
        match spk2gen.find? (fun p => p.1 == subdir) with
        | none => ([], some PyError.keyError)
        | some pg =>
          match loHi pg.2 with
          | Except.error e => ([], some e)
          | Except.ok lohi =>
            match processFiles oc td tf0 temb lohi.1 lohi.2 subdir files with
            | (ws, some e) => (ws, some e)
            | (ws, none) =>
              (ws ++ [⟨temb ++ "/" ++ subdir ++ "/" ++ subdir ++ "_avg",
                Artifact.avgEmb⟩], none)

/-- The whole script body: iterate over speakers in order; an uncaught
exception stops the whole corpus build, with the saves made so far. -/
def runScript (env : List (String × String)) (spk2gen : List (String × String))
    (oc : Oracles) : List (String × List (String × List ℚ)) →
      List SaveCall × Option PyError
  | [] => ([], none)
  | (subdir, files) :: rest =>
    match processSpeaker env spk2gen oc subdir files with
    | (ws, some e) => (ws, some e)
    | (ws, none) =>
      match runScript env spk2gen oc rest with
      | (ws2, r) => (ws ++ ws2, r)

/-! ## Pitch normalization (`speaker_normalization`, imported from the
repository's `utils` module) -/

/-- Modelled from the spec: `speaker_normalization` is defined in the
repository's `utils.py`, which is not under `src/` — `make_spect_f0.py` only
imports and calls it, passing the voiced mask `f0_rapt != -1e10` together
with the mean and standard deviation of the voiced frames. Per the spec:
voiced frames (value different from the sentinel `-1e10`) map to the z-score
`(f0 - mean)/std`; unvoiced frames retain the sentinel. -/
def speaker_normalization (f0 : List ℚ) (mean std : ℚ) : List ℚ :=
  f0.map (fun v => if v = sentinel then v else (v - mean) / std)

/-- Values of the voiced frames (`f0_rapt[index_nonzero]`, with the mask
`index_nonzero = f0_rapt != -1e10`). -/
def voicedValues (f0 : List ℚ) : List ℚ :=
  f0.filter (fun v => decide (v ≠ sentinel))

/-- Arithmetic mean (`np.mean`). -/
def listMean (l : List ℚ) : ℚ :=
  l.sum / l.length

/-- Population variance, the square of `np.std`. -/
def listVar (l : List ℚ) : ℚ :=
  ((l.map (fun v => (v - listMean l) ^ 2)).sum) / l.length

end VoiceDi

namespace VoiceDi

/-! ## Helper lemmas -/

/-- Helper: mapping a position-independent function over an enumerated list. -/
lemma enum_map_snd_eval {α : Type} (g : Token → α) (batch : List Token) :
    batch.enum.map (fun p => g p.2) = batch.map g := by
  have h1 : (fun p : Nat × Token => g p.2) = g ∘ Prod.snd := rfl
  rw [h1, ← List.map_map, List.enum_map_snd]

/-- Helper: the collator output is invariant under relabelling the batch —
the label never reaches any of the four returned arrays. -/
lemma collate_map_relabel (hp : Hparams) (lefts : Nat → Nat)
    (batch : List Token) (f : Nat → Nat) :
    collate hp lefts (batch.map (relabel f)) = collate hp lefts batch := by
  have key : (batch.map (relabel f)).enum.map
      (fun p => collateToken hp (lefts p.1) p.2) =
      batch.enum.map (fun p =>
        { collateToken hp (lefts p.1) p.2 with emo := f p.2.emo }) := by
    rw [List.enum_map, List.map_map]
    rfl
  show CollatorOutput.mk _ _ _ _ = CollatorOutput.mk _ _ _ _
  rw [key]
  simp only [List.map_map]
  rfl

/-- Helper: balanced class weights are strictly antitone in the class count. -/
lemma classWeight_lt_of_count_lt (y : List Nat) (a b : Nat)
    (ha : a ∈ y) (hb : b ∈ y) (h : y.count b < y.count a) :
    classWeight y a < classWeight y b := by
  have hylen : 0 < (y.length : ℚ) := by
    exact_mod_cast List.length_pos.mpr (List.ne_nil_of_mem ha)
  have hk : 0 < (numClasses y : ℚ) := by
    have : y.dedup ≠ [] := by
      simp [List.dedup_eq_nil]
      exact List.ne_nil_of_mem ha
    exact_mod_cast List.length_pos.mpr this
  have hcb : 0 < (y.count b : ℚ) := by
    exact_mod_cast List.count_pos_iff.mpr hb
  have hlt : (numClasses y : ℚ) * (y.count b : ℚ) <
      (numClasses y : ℚ) * (y.count a : ℚ) := by
    apply mul_lt_mul_of_pos_left _ hk
    exact_mod_cast h
  exact div_lt_div_of_pos_left hylen (mul_pos hk hcb) hlt

/-! ## Claim C2: partition disjointness and coverage -/

/-- C2 (corrected part): the three partitions are pairwise disjoint, and
their union is exactly the filtered manifest rows whose derived session is
one of `"01" … "05"` — not the whole filtered manifest. -/
theorem c2_partitions (selected : List String) (meta : List RawRow)
    (hsel : selected ≠ []) :
    (∀ r : Row, ¬(r ∈ meta_train selected meta ∧ r ∈ meta_val selected meta)) ∧
    (∀ r : Row, ¬(r ∈ meta_train selected meta ∧ r ∈ meta_test selected meta)) ∧
    (∀ r : Row, ¬(r ∈ meta_val selected meta ∧ r ∈ meta_test selected meta)) ∧
    (∀ r : Row,
      (r ∈ meta_train selected meta ∨ r ∈ meta_val selected meta ∨
        r ∈ meta_test selected meta) ↔
      (r ∈ metaFiltered selected meta ∧
        sessionOf r ∈ (["01", "02", "03", "04", "05"] : List String))) := by
  clear hsel
  have hM : ∀ r : Row, r ∈ meta_train selected meta ↔
      r ∈ metaFiltered selected meta ∧
        (sessionOf r = "01" ∨ sessionOf r = "02" ∨ sessionOf r = "03") := by
    intro r
    simp [meta_train, List.mem_filter, or_assoc]
  have hV : ∀ r : Row, r ∈ meta_val selected meta ↔
      r ∈ metaFiltered selected meta ∧ sessionOf r = "04" := by
    intro r
    simp [meta_val, List.mem_filter]
  have hT : ∀ r : Row, r ∈ meta_test selected meta ↔
      r ∈ metaFiltered selected meta ∧ sessionOf r = "05" := by
    intro r
    simp [meta_test, List.mem_filter]
  refine ⟨?_, ?_, ?_, ?_⟩
  · rintro r ⟨h1, h2⟩
    rcases ((hM r).1 h1).2 with h | h | h <;> have h4 := ((hV r).1 h2).2 <;>
      rw [h] at h4 <;> exact absurd h4 (by decide)
  · rintro r ⟨h1, h2⟩
    rcases ((hM r).1 h1).2 with h | h | h <;> have h4 := ((hT r).1 h2).2 <;>
      rw [h] at h4 <;> exact absurd h4 (by decide)
  · rintro r ⟨h1, h2⟩
    have h3 := ((hV r).1 h1).2
    have h4 := ((hT r).1 h2).2
    rw [h3] at h4
    exact absurd h4 (by decide)
  · intro r
    constructor
    · rintro (h | h | h)
      · rcases (hM r).1 h with ⟨hm, h | h | h⟩ <;> exact ⟨hm, by rw [h]; decide⟩
      · rcases (hV r).1 h with ⟨hm, h⟩
        exact ⟨hm, by rw [h]; decide⟩
      · rcases (hT r).1 h with ⟨hm, h⟩
        exact ⟨hm, by rw [h]; decide⟩
    · rintro ⟨hm, hs⟩
      simp only [List.mem_cons, List.not_mem_nil, or_false] at hs
      rcases hs with h | h | h | h | h
      · exact Or.inl ((hM r).2 ⟨hm, Or.inl h⟩)
      · exact Or.inl ((hM r).2 ⟨hm, Or.inr (Or.inl h)⟩)
      · exact Or.inl ((hM r).2 ⟨hm, Or.inr (Or.inr h)⟩)
      · exact Or.inr (Or.inl ((hV r).2 ⟨hm, h⟩))
      · exact Or.inr (Or.inr ((hT r).2 ⟨hm, h⟩))

/-- C2 witness: the (corrected) partition theorem instantiated on a concrete
one-row manifest. -/
theorem c2_partitions_witness :
    (["ang"] : List String) ≠ [] ∧
    (∀ r : Row,
      (r ∈ meta_train ["ang"] [⟨"Ses01F_x", "ang"⟩] ∨
        r ∈ meta_val ["ang"] [⟨"Ses01F_x", "ang"⟩] ∨
        r ∈ meta_test ["ang"] [⟨"Ses01F_x", "ang"⟩]) ↔
      (r ∈ metaFiltered ["ang"] [⟨"Ses01F_x", "ang"⟩] ∧
        sessionOf r ∈ (["01", "02", "03", "04", "05"] : List String))) :=
  ⟨by decide, (c2_partitions ["ang"] [⟨"Ses01F_x", "ang"⟩] (by decide)).2.2.2⟩

/-- C2 counterexample: with the one-row manifest whose wav identifier
`"Ses06F_impro01_F000"` yields session `"06"` and label `"ang"` in the
selected set, the row is in the filtered manifest but in none of the three
partitions, so the union of the partitions is not the filtered manifest. -/
theorem c2_counterexample :
    ¬(∀ r : Row,
      (r ∈ meta_train ["ang"] [⟨"Ses06F_impro01_F000", "ang"⟩] ∨
        r ∈ meta_val ["ang"] [⟨"Ses06F_impro01_F000", "ang"⟩] ∨
        r ∈ meta_test ["ang"] [⟨"Ses06F_impro01_F000", "ang"⟩]) ↔
      r ∈ metaFiltered ["ang"] [⟨"Ses06F_impro01_F000", "ang"⟩]) := by
  intro h
  have := (h ⟨"Ses06F_impro01_F000", 0⟩).2 (by decide)
  revert this
  decide

/-! ## Claim C3: what the assembled batch carries -/

/-- C3 counterexample: two one-utterance batches that differ only in the
emotion label produce identical collator outputs, so no component of the
returned batch carries the label — had the batch carried each utterance's
emotion label, the outputs would differ. -/
theorem c3_counterexample :
    (Token.mk [[1]] [1] [3] 0 ≠ Token.mk [[1]] [1] [3] 1) ∧
    collate ⟨0, 4, 4⟩ (fun _ => 0) [⟨[[1]], [1], [3], 0⟩] =
      collate ⟨0, 4, 4⟩ (fun _ => 0) [⟨[[1]], [1], [3], 1⟩] := by
  constructor
  · intro h
    exact absurd (congrArg Token.emo h) (by decide)
  · have := collate_map_relabel ⟨0, 4, 4⟩ (fun _ => 0)
      [⟨[[1]], [1], [3], 0⟩] (fun _ => 1)
    simpa [relabel] using this.symm

/-- C3 amended: the returned batch carries, aligned by batch position, each
utterance's pre-pad (post-crop) length and its speaker embedding, alongside
the padded spectrograms and pitch contours — but not the emotion label: the
output is invariant under arbitrary relabelling of the input batch. -/
theorem c3_batch_alignment (hp : Hparams) (lefts : Nat → Nat) (batch : List Token) :
    (collate hp lefts batch).len_org = batch.map (fun t => cropLen hp t.melsp) ∧
    (collate hp lefts batch).spk_emb = batch.map Token.emb ∧
    (∀ f : Nat → Nat, collate hp lefts (batch.map (relabel f)) = collate hp lefts batch) := by
  refine ⟨?_, ?_, fun f => collate_map_relabel hp lefts batch f⟩
  · show (batch.enum.map (fun p => collateToken hp (lefts p.1) p.2)).map TokenOut.len_crop
      = batch.map (fun t => cropLen hp t.melsp)
    rw [List.map_map]
    exact enum_map_snd_eval (fun t => cropLen hp t.melsp) batch
  · show (batch.enum.map (fun p => collateToken hp (lefts p.1) p.2)).map TokenOut.b
      = batch.map Token.emb
    rw [List.map_map]
    exact enum_map_snd_eval Token.emb batch

/-! ## Claim C5: the crop step -/

/-- C5: the crop step of the batch assembler. If the spectrogram is at most
`max_len_seq` frames long, the recorded crop length is the true length and
both streams pass through unchanged; if it is longer, the recorded crop
length is `max_len_seq` and the kept window is the contiguous sub-range
`[left, left + max_len_seq)` of the original, with the same offset applied to
the spectrogram and the pitch contour. -/
theorem c5_crop (hp : Hparams) (left : Nat) (aa : List (List ℚ)) (pc : List ℚ)
    (hlen : pc.length = aa.length) :
    (aa.length ≤ hp.max_len_seq →
      cropLen hp aa = aa.length ∧ cropSpect hp left aa = aa ∧
        cropPitch hp left aa pc = pc) ∧
    (hp.max_len_seq < aa.length → left < aa.length - hp.max_len_seq →
      cropLen hp aa = hp.max_len_seq ∧
      (cropSpect hp left aa).length = hp.max_len_seq ∧
      (cropPitch hp left aa pc).length = hp.max_len_seq ∧
      (∀ i, i < hp.max_len_seq →
        (cropSpect hp left aa)[i]? = aa[left + i]? ∧
        (cropPitch hp left aa pc)[i]? = pc[left + i]?)) := by
  constructor
  · intro h
    rw [cropLen, cropSpect, cropPitch, if_neg (by omega), if_neg (by omega),
      if_neg (by omega)]
    exact ⟨rfl, rfl, rfl⟩
  · intro h hleft
    rw [cropLen, cropSpect, cropPitch, if_pos (by omega), if_pos (by omega),
      if_pos (by omega)]
    refine ⟨rfl, ?_, ?_, ?_⟩
    · rw [List.length_take, List.length_drop]
      omega
    · rw [List.length_take, List.length_drop]
      omega
    · intro i hi
      rw [List.getElem?_take_of_lt hi, List.getElem?_take_of_lt hi,
        List.getElem?_drop, List.getElem?_drop]
      exact ⟨rfl, rfl⟩

/-- C5 witness: a three-frame utterance cropped to two frames at offset 0. -/
theorem c5_crop_witness :
    cropLen ⟨0, 2, 4⟩ [[1], [2], [3]] = 2 ∧
    (cropSpect ⟨0, 2, 4⟩ 0 [[1], [2], [3]])[1]? =
      (([[1], [2], [3]] : List (List ℚ)))[0 + 1]? ∧
    (cropPitch ⟨0, 2, 4⟩ 0 [[1], [2], [3]] [7, 8, 9])[1]? =
      (([7, 8, 9] : List ℚ))[0 + 1]? :=
  ⟨((c5_crop ⟨0, 2, 4⟩ 0 [[1], [2], [3]] [7, 8, 9] (by decide)).2
      (by decide) (by decide)).1,
   (((c5_crop ⟨0, 2, 4⟩ 0 [[1], [2], [3]] [7, 8, 9] (by decide)).2
      (by decide) (by decide)).2.2.2 1 (by decide)).1,
   (((c5_crop ⟨0, 2, 4⟩ 0 [[1], [2], [3]] [7, 8, 9] (by decide)).2
      (by decide) (by decide)).2.2.2 1 (by decide)).2⟩

/-! ## Claim C6: clip and pad -/

/-- C6: the batch assembler clips every spectrogram value to `[0, 1]`, then
pads the (possibly cropped) spectrogram with zero rows and the pitch contour
with the sentinel `-1e10` up to `max_len_pad`, while the recorded crop length
stays the pre-pad length. Instantiated at max pad length 20 and true length
15 this gives 20 rows (15 real + 5 zero rows), 20 pitch entries (15 real +
5 sentinels), and crop length 15. -/
theorem c6_clip_and_pad (hp : Hparams) (left : Nat) (t : Token)
    (hs : (cropSpect hp left t.melsp).length ≤ hp.max_len_pad)
    (hc : (cropPitch hp left t.melsp t.f0).length ≤ hp.max_len_pad) :
    (collateToken hp left t).len_crop = cropLen hp t.melsp ∧
    (collateToken hp left t).a_pad.length = hp.max_len_pad ∧
    (collateToken hp left t).c_pad.length = hp.max_len_pad ∧
    (∀ v : ℚ, 0 ≤ clip01 v ∧ clip01 v ≤ 1) ∧
    (∀ i, i < (cropSpect hp left t.melsp).length →
      (collateToken hp left t).a_pad[i]? =
        ((cropSpect hp left t.melsp)[i]?).map (fun row => row.map clip01)) ∧
    (∀ i, (cropSpect hp left t.melsp).length ≤ i → i < hp.max_len_pad →
      (collateToken hp left t).a_pad[i]? =
        some (List.replicate
          (rowWidth ((cropSpect hp left t.melsp).map (fun row => row.map clip01))) 0)) ∧
    (∀ i, i < (cropPitch hp left t.melsp t.f0).length →
      (collateToken hp left t).c_pad[i]? = (cropPitch hp left t.melsp t.f0)[i]?) ∧
    (∀ i, (cropPitch hp left t.melsp t.f0).length ≤ i → i < hp.max_len_pad →
      (collateToken hp left t).c_pad[i]? = some sentinel) := by
  have ha : (collateToken hp left t).a_pad =
      (cropSpect hp left t.melsp).map (fun row => row.map clip01) ++
        List.replicate
          (hp.max_len_pad -
            ((cropSpect hp left t.melsp).map (fun row => row.map clip01)).length)
          (List.replicate
            (rowWidth ((cropSpect hp left t.melsp).map (fun row => row.map clip01))) 0) := rfl
  have hcp : (collateToken hp left t).c_pad =
      cropPitch hp left t.melsp t.f0 ++
        List.replicate (hp.max_len_pad - (cropPitch hp left t.melsp t.f0).length)
          sentinel := rfl
  refine ⟨rfl, ?_, ?_, ?_, ?_, ?_, ?_, ?_⟩
  · rw [ha, List.length_append, List.length_replicate, List.length_map]
    rw [List.length_map] at *
    omega
  · rw [hcp, List.length_append, List.length_replicate]
    omega
  · intro v
    exact ⟨le_min (le_max_right v 0) zero_le_one, min_le_right _ 1⟩
  · intro i hi
    rw [ha, List.getElem?_append_left (by rw [List.length_map]; exact hi),
      List.getElem?_map]
  · intro i h1 h2
    rw [ha, List.getElem?_append_right (by rw [List.length_map]; exact h1),
      List.getElem?_replicate, if_pos (by rw [List.length_map]; omega)]
  · intro i hi
    rw [hcp, List.getElem?_append_left hi]
  · intro i h1 h2
    rw [hcp, List.getElem?_append_right h1, List.getElem?_replicate,
      if_pos (by omega)]

/-- C6 witness: max pad length 20, one utterance of true length 15 — 20
spectrogram rows, 20 pitch entries, sentinel and zero-row padding past
position 15, crop length 15. -/
theorem c6_clip_and_pad_witness :
    (collateToken (⟨0, 100, 20⟩ : Hparams) 0
        ⟨List.replicate 15 [0], [1], List.replicate 15 3, 0⟩).len_crop =
      cropLen (⟨0, 100, 20⟩ : Hparams) (List.replicate 15 [0]) ∧
    (collateToken (⟨0, 100, 20⟩ : Hparams) 0
        ⟨List.replicate 15 [0], [1], List.replicate 15 3, 0⟩).a_pad.length = 20 ∧
    (collateToken (⟨0, 100, 20⟩ : Hparams) 0
        ⟨List.replicate 15 [0], [1], List.replicate 15 3, 0⟩).c_pad.length = 20 ∧
    (collateToken (⟨0, 100, 20⟩ : Hparams) 0
        ⟨List.replicate 15 [0], [1], List.replicate 15 3, 0⟩).a_pad[17]? =
      some (List.replicate
        (rowWidth ((cropSpect (⟨0, 100, 20⟩ : Hparams) 0
          (List.replicate 15 [0])).map (fun row => row.map clip01))) 0) ∧
    (collateToken (⟨0, 100, 20⟩ : Hparams) 0
        ⟨List.replicate 15 [0], [1], List.replicate 15 3, 0⟩).c_pad[17]? =
      some sentinel := by
  have H := c6_clip_and_pad (⟨0, 100, 20⟩ : Hparams) 0
    ⟨List.replicate 15 [0], [1], List.replicate 15 3, 0⟩ (by decide) (by decide)
  exact ⟨H.1, H.2.1, H.2.2.1,
    H.2.2.2.2.2.1 17 (by decide) (by decide),
    H.2.2.2.2.2.2.2 17 (by decide) (by decide)⟩

/-! ## Claim C10: balanced class weights are antitone in frequency -/

/-- C10: the class weight the Dataset Index assigns is strictly decreasing in
the class's frequency in the train partition: if label `a` occurs strictly
more often there than label `b`, then `a`'s weight is strictly smaller. -/
theorem c10_classWeight_strict_antitone (selected : List String)
    (meta : List RawRow) (a b : Nat)
    (ha : a ∈ (meta_train selected meta).map Row.emotion)
    (hb : b ∈ (meta_train selected meta).map Row.emotion)
    (h : ((meta_train selected meta).map Row.emotion).count b <
      ((meta_train selected meta).map Row.emotion).count a) :
    trainClassWeight selected meta a < trainClassWeight selected meta b :=
  classWeight_lt_of_count_lt _ a b ha hb h

/-- C10 witness: on a concrete manifest whose train partition has labels
`[0, 0, 1]`, the weight of the frequent label 0 is below the weight of the
rare label 1. -/
theorem c10_classWeight_strict_antitone_witness :
    trainClassWeight ["ang", "neu"]
        [⟨"Ses01a", "ang"⟩, ⟨"Ses01b", "ang"⟩, ⟨"Ses01c", "neu"⟩] 0 <
      trainClassWeight ["ang", "neu"]
        [⟨"Ses01a", "ang"⟩, ⟨"Ses01b", "ang"⟩, ⟨"Ses01c", "neu"⟩] 1 :=
  c10_classWeight_strict_antitone ["ang", "neu"]
    [⟨"Ses01a", "ang"⟩, ⟨"Ses01b", "ang"⟩, ⟨"Ses01c", "neu"⟩] 0 1
    (by decide) (by decide) (by decide)

/-! ## Claim C1: the unbound `targetDir_emb` -/

/-- C1: with the module-level bindings as written (`targetDir_emb` never
assigned), a corpus with at least one speaker makes the script die with a
`NameError` on `targetDir_emb` while setting up the first speaker's output
directories, and no spectrogram, pitch or embedding artifact is ever
saved. -/
theorem c1_targetDir_emb_unbound (spk2gen : List (String × String)) (oc : Oracles)
    (speakers : List (String × List (String × List ℚ))) (h : speakers ≠ []) :
    runScript moduleEnv spk2gen oc speakers =
      ([], some (PyError.nameError "targetDir_emb")) := by
  have hsp : ∀ (subdir : String) (files : List (String × List ℚ)),
      processSpeaker moduleEnv spk2gen oc subdir files =
        ([], some (PyError.nameError "targetDir_emb")) := fun _ _ => rfl
  cases speakers with
  | nil => exact absurd rfl h
  | cons p rest =>
    obtain ⟨subdir, files⟩ := p
    show (match processSpeaker moduleEnv spk2gen oc subdir files with
      | (ws, some e) => (ws, some e)
      | (ws, none) =>
        match runScript moduleEnv spk2gen oc rest with
        | (ws2, r) => (ws ++ ws2, r)) =
      ([], some (PyError.nameError "targetDir_emb"))
    rw [hsp]

/-- C1 witness: a concrete one-speaker corpus with trivial oracles. -/
theorem c1_targetDir_emb_unbound_witness :
    runScript moduleEnv [("p225", "M")]
        ⟨fun _ => [], fun _ _ _ => [], fun _ => [], fun _ x => x⟩
        [("p225", [])] =
      ([], some (PyError.nameError "targetDir_emb")) :=
  c1_targetDir_emb_unbound [("p225", "M")]
    ⟨fun _ => [], fun _ _ _ => [], fun _ => [], fun _ x => x⟩
    [("p225", [])] (by decide)

/-! ## Claim C4: the frame-count assertion guards all three saves -/

/-- C4: for one `.wav` utterance, all three artifacts are saved exactly when
the spectrogram frame count equals the pitch-contour frame count; on a
mismatch the assertion aborts the utterance before any save, so no partially
written feature triple exists. -/
theorem c4_assert_guards_saves (oc : Oracles) (td tf0 temb : String)
    (lo hi : Nat) (subdir fileName : String) (x : List ℚ)
    (hwav : lastN fileName 4 = ".wav") :
    ((oc.spectS (oc.filtdither subdir (lengthAdjust x))).length =
        (oc.rapt lo hi (oc.filtdither subdir (lengthAdjust x))).length →
      processUtterance oc td tf0 temb lo hi subdir fileName x =
        Except.ok
          [⟨td ++ "/" ++ subdir ++ "/" ++ dropLastN fileName 4, Artifact.spect⟩,
           ⟨tf0 ++ "/" ++ subdir ++ "/" ++ dropLastN fileName 4, Artifact.f0⟩,
           ⟨temb ++ "/" ++ subdir ++ "/" ++ dropLastN fileName 4, Artifact.emb⟩]) ∧
    ((oc.spectS (oc.filtdither subdir (lengthAdjust x))).length ≠
        (oc.rapt lo hi (oc.filtdither subdir (lengthAdjust x))).length →
      processUtterance oc td tf0 temb lo hi subdir fileName x =
        Except.error PyError.assertionError) := by
  constructor <;> intro hLen <;> simp [processUtterance, hwav, hLen]

/-- C4 witness: concrete oracles realizing both the matching case (one frame
each) and the mismatching case (one spectrogram frame, two pitch frames). -/
theorem c4_assert_guards_saves_witness :
    processUtterance
        ⟨fun _ => [[0]], fun _ _ _ => [0], fun _ => [], fun _ x => x⟩
        "spmel" "raptf0" "emb" 50 250 "p225" "a.wav" [] =
      Except.ok
        [⟨"spmel" ++ "/" ++ "p225" ++ "/" ++ dropLastN "a.wav" 4, Artifact.spect⟩,
         ⟨"raptf0" ++ "/" ++ "p225" ++ "/" ++ dropLastN "a.wav" 4, Artifact.f0⟩,
         ⟨"emb" ++ "/" ++ "p225" ++ "/" ++ dropLastN "a.wav" 4, Artifact.emb⟩] ∧
    processUtterance
        ⟨fun _ => [[0]], fun _ _ _ => [0, 0], fun _ => [], fun _ x => x⟩
        "spmel" "raptf0" "emb" 50 250 "p225" "a.wav" [] =
      Except.error PyError.assertionError :=
  ⟨(c4_assert_guards_saves
      ⟨fun _ => [[0]], fun _ _ _ => [0], fun _ => [], fun _ x => x⟩
      "spmel" "raptf0" "emb" 50 250 "p225" "a.wav" [] (by decide)).1 (by decide),
   (c4_assert_guards_saves
      ⟨fun _ => [[0]], fun _ _ _ => [0, 0], fun _ => [], fun _ x => x⟩
      "spmel" "raptf0" "emb" 50 250 "p225" "a.wav" [] (by decide)).2 (by decide)⟩

/-! ## Claim C8: gender-based pitch bounds and the unknown-gender error -/

/-- C8: `"M"` selects bounds `(50, 250)` and `"F"` selects `(100, 600)`; for
a speaker whose gender label is anything else — with the output-directory
names resolvable, so that the gender check is actually reached — the speaker
loop raises `ValueError` before processing any of that speaker's utterances,
and nothing of that speaker is saved (the uncaught exception aborts the whole
corpus build). -/
theorem c8_gender_bounds (env spk2gen : List (String × String)) (oc : Oracles)
    (subdir : String) (files : List (String × List ℚ)) (td tf0 temb s0 g : String)
    (htd : lookupGlobal env "targetDir" = Except.ok td)
    (htf : lookupGlobal env "targetDir_f0" = Except.ok tf0)
    (hte : lookupGlobal env "targetDir_emb" = Except.ok temb)
    (hg : spk2gen.find? (fun p => p.1 == subdir) = some (s0, g))
    (hM : g ≠ "M") (hF : g ≠ "F") :
    loHi "M" = Except.ok (50, 250) ∧
    loHi "F" = Except.ok (100, 600) ∧
    loHi g = Except.error PyError.valueError ∧
    processSpeaker env spk2gen oc subdir files = ([], some PyError.valueError) := by
  have hlo : loHi g = Except.error PyError.valueError := by
    rw [loHi, if_neg (by simp [hM]), if_neg (by simp [hF])]
  refine ⟨rfl, rfl, hlo, ?_⟩
  rw [processSpeaker, htd, htf, hte, hg]
  show (match loHi g with
    | Except.error e => ([], some e)
    | Except.ok lohi =>
      match processFiles oc td tf0 temb lohi.1 lohi.2 subdir files with
      | (ws, some e) => (ws, some e)
      | (ws, none) =>
        (ws ++ [⟨temb ++ "/" ++ subdir ++ "/" ++ subdir ++ "_avg",
          Artifact.avgEmb⟩], none)) =
    ([], some PyError.valueError)
  rw [hlo]

/-- C8 witness: a concrete environment binding all three directory names and
a speaker with gender label `"X"`. -/
theorem c8_gender_bounds_witness :
    loHi "M" = Except.ok (50, 250) ∧
    loHi "F" = Except.ok (100, 600) ∧
    processSpeaker [("targetDir", "a"), ("targetDir_f0", "b"), ("targetDir_emb", "c")]
        [("p1", "X")] ⟨fun _ => [], fun _ _ _ => [], fun _ => [], fun _ x => x⟩
        "p1" [] =
      ([], some PyError.valueError) := by
  have H := c8_gender_bounds
    [("targetDir", "a"), ("targetDir_f0", "b"), ("targetDir_emb", "c")]
    [("p1", "X")] ⟨fun _ => [], fun _ _ _ => [], fun _ => [], fun _ x => x⟩
    "p1" [] "a" "b" "c" "p1" "X" rfl rfl rfl rfl (by decide) (by decide)
  exact ⟨H.1, H.2.1, H.2.2.2⟩

/-! ## Claim C9: the length-adjust step -/

/-- C9: the Signal Preprocessor appends exactly one sample of value `1e-06`
iff the sample count is an exact multiple of 256 — output length is
input length + 1 in that case and the input is returned unchanged
otherwise. -/
theorem c9_lengthAdjust (x : List ℚ) :
    (x.length % 256 = 0 →
      lengthAdjust x = x ++ [1 / 1000000] ∧
        (lengthAdjust x).length = x.length + 1) ∧
    (x.length % 256 ≠ 0 → lengthAdjust x = x) := by
  constructor
  · intro h
    rw [lengthAdjust, if_pos h]
    exact ⟨rfl, by simp⟩
  · intro h
    rw [lengthAdjust, if_neg h]

/-- C9 witness: the empty waveform (length 0, a multiple of 256) gains one
`1e-06` sample; a one-sample waveform is unchanged. -/
theorem c9_lengthAdjust_witness :
    (lengthAdjust ([] : List ℚ) = [] ++ [1 / 1000000] ∧
      (lengthAdjust ([] : List ℚ)).length = 0 + 1) ∧
    lengthAdjust ([5] : List ℚ) = [5] :=
  ⟨(c9_lengthAdjust ([] : List ℚ)).1 (by decide),
   (c9_lengthAdjust ([5] : List ℚ)).2 (by decide)⟩

/-! ## Claim C7: z-score pitch normalization -/

/-- Helper: sum of `(v - mean)/std` over a list. -/
lemma sum_map_sub_div (l : List ℚ) (m d : ℚ) :
    (l.map (fun v => (v - m) / d)).sum = (l.sum - l.length * m) / d := by
  induction l with
  | nil => simp
  | cons a t ih =>
    simp only [List.map_cons, List.sum_cons, ih, List.length_cons]
    rw [div_add_div_same]
    congr 1
    push_cast
    ring

/-- Helper: sum of squared `(v - mean)/std` over a list. -/
lemma sum_map_sq_div (l : List ℚ) (m d : ℚ) :
    (l.map (fun v => ((v - m) / d) ^ 2)).sum =
      (l.map (fun v => (v - m) ^ 2)).sum / d ^ 2 := by
  induction l with
  | nil => simp
  | cons a t ih =>
    simp only [List.map_cons, List.sum_cons, ih]
    rw [div_pow, div_add_div_same]

/-- Helper: z-scores of a non-empty list have mean exactly 0. -/
lemma listMean_zscore (l : List ℚ) (d : ℚ) (h : l ≠ []) :
    listMean (l.map (fun v => (v - listMean l) / d)) = 0 := by
  have hn : (l.length : ℚ) ≠ 0 := by
    exact_mod_cast fun h0 => h (List.length_eq_zero.mp h0)
  rw [listMean, List.length_map, sum_map_sub_div]
  have h2 : l.sum - (l.length : ℚ) * listMean l = 0 := by
    rw [listMean]
    field_simp
  rw [h2, zero_div, zero_div]

/-- Helper: z-scores of a non-empty list have variance exactly 1 when the
divisor squares to the list's variance. -/
lemma listVar_zscore (l : List ℚ) (d : ℚ) (h : l ≠ []) (hd : d ≠ 0)
    (hvar : d ^ 2 = listVar l) :
    listVar (l.map (fun v => (v - listMean l) / d)) = 1 := by
  rw [listVar, listMean_zscore l d h]
  simp only [sub_zero, List.map_map, List.length_map, Function.comp_def]
  rw [sum_map_sq_div, div_right_comm, ← listVar, ← hvar,
    div_self (pow_ne_zero 2 hd)]

/-- C7: `speaker_normalization` maps each voiced frame (value different from
the sentinel `-1e10`) to its z-score `(f0 - mean)/std`, where mean and std
are over the voiced frames only, and leaves every unvoiced frame exactly
equal to the sentinel; the normalized voiced values have mean exactly 0 and
variance exactly 1 (hence standard deviation 1). The standard deviation is
passed as any `d ≠ 0` with `d² = variance`, mirroring `np.std`. -/
theorem c7_speaker_normalization (f0 : List ℚ) (d : ℚ)
    (hne : voicedValues f0 ≠ []) (hd : d ≠ 0)
    (hvar : d ^ 2 = listVar (voicedValues f0)) :
    (∀ i : Nat, f0[i]? = some sentinel →
      (speaker_normalization f0 (listMean (voicedValues f0)) d)[i]? =
        some sentinel) ∧
    (∀ (i : Nat) (v : ℚ), f0[i]? = some v → v ≠ sentinel →
      (speaker_normalization f0 (listMean (voicedValues f0)) d)[i]? =
        some ((v - listMean (voicedValues f0)) / d)) ∧
    listMean ((voicedValues f0).map
      (fun v => (v - listMean (voicedValues f0)) / d)) = 0 ∧
    listVar ((voicedValues f0).map
      (fun v => (v - listMean (voicedValues f0)) / d)) = 1 := by
  refine ⟨?_, ?_, listMean_zscore _ d hne, listVar_zscore _ d hne hd hvar⟩
  · intro i hi
    rw [speaker_normalization, List.getElem?_map, hi]
    simp
  · intro i w hw hwne
    rw [speaker_normalization, List.getElem?_map, hw]
    simp [hwne]

/-- C7 witness: the contour `[-1e10, 1, 3, -1e10]` has voiced values
`[1, 3]`, mean 2 and variance 1; normalization sends it to
`[-1e10, -1, 1, -1e10]`. -/
theorem c7_speaker_normalization_witness :
    (speaker_normalization [sentinel, 1, 3, sentinel]
        (listMean (voicedValues [sentinel, 1, 3, sentinel])) 1)[0]? =
      some sentinel ∧
    (speaker_normalization [sentinel, 1, 3, sentinel]
        (listMean (voicedValues [sentinel, 1, 3, sentinel])) 1)[1]? =
      some ((1 - listMean (voicedValues [sentinel, 1, 3, sentinel])) / 1) ∧
    listMean ((voicedValues [sentinel, 1, 3, sentinel]).map
      (fun v => (v - listMean (voicedValues [sentinel, 1, 3, sentinel])) / 1)) = 0 ∧
    listVar ((voicedValues [sentinel, 1, 3, sentinel]).map
      (fun v => (v - listMean (voicedValues [sentinel, 1, 3, sentinel])) / 1)) = 1 := by
  have e1 : voicedValues [sentinel, 1, 3, sentinel] = [1, 3] := by
    norm_num [voicedValues, sentinel, List.filter]
  have hne : voicedValues [sentinel, 1, 3, sentinel] ≠ [] := by
    rw [e1]
    exact List.cons_ne_nil 1 [3]
  have hvar : (1 : ℚ) ^ 2 = listVar (voicedValues [sentinel, 1, 3, sentinel]) := by
    rw [e1]
    norm_num [listVar, listMean, List.map_cons, List.map_nil, List.sum_cons,
      List.sum_nil, List.length_cons, List.length_nil]
  have H := c7_speaker_normalization [sentinel, 1, 3, sentinel] 1
    hne (by norm_num) hvar
  refine ⟨H.1 0 rfl, H.2.1 1 1 rfl ?_, H.2.2.1, H.2.2.2⟩
  norm_num [sentinel]

end VoiceDi
